import Mathlib

/-!
Verification development for the GLTF asset loader in
AssetLoader/src/GLTFLoader.cpp (namespace Diligent::GLTF).

The C++ code is shallowly embedded over exact arithmetic:

* float values are modelled as rationals,
* machine integers use Nat with explicit reduction modulo 2^32 where the
  source performs unsigned 32-bit arithmetic,
* float4x4 matrices are functions Fin 4 → Fin 4 → ℚ in the row-major,
  row-vector convention of the external math library,
* vectors of C++ objects are Lean lists, and stateful loading routines are
  explicit state-passing functions.

External collaborators from the underlying math library (float4x4 products
and factories, quaternion-to-matrix conversion, BoundBox::Transform) are
given standard concrete definitions; the composition claims proved below do
not depend on those formulas, only on how GLTFLoader.cpp combines them.
-/

set_option maxHeartbeats 1000000

namespace GLTF

/-- Modulus of unsigned 32-bit arithmetic (Uint32 in the source). -/
def U32 : ℕ := 4294967296

/-- Model of the Diligent float3 vector over exact rationals. -/
structure Float3 where
  x : ℚ
  y : ℚ
  z : ℚ
deriving DecidableEq, Repr

/-- Model of the Diligent float4 vector over exact rationals. -/
structure Float4 where
  x : ℚ
  y : ℚ
  z : ℚ
  w : ℚ
deriving DecidableEq, Repr

/-- Componentwise minimum, modelling the std::min specialization the math
library provides for float3 (used at GLTFLoader.cpp lines 543 and 1739). -/
def minC (a b : Float3) : Float3 := ⟨min a.x b.x, min a.y b.y, min a.z b.z⟩

/-- Componentwise maximum, modelling the std::max specialization the math
library provides for float3 (used at GLTFLoader.cpp lines 544 and 1740). -/
def maxC (a b : Float3) : Float3 := ⟨max a.x b.x, max a.y b.y, max a.z b.z⟩

/-- The xyz part of a float4, modelling the float3-from-float4 conversion used
when animation channels write translation and scale values. -/
def float3of (v : Float4) : Float3 := ⟨v.x, v.y, v.z⟩

/-- Model of FLT_MAX, the initial scene-dimension sentinel of
Model::GetSceneDimensions (lines 1732 and 1733). -/
def fltMax : ℚ := (2 ^ 24 - 1) * 2 ^ 104

/-- A 4x4 float matrix, modelled as a function over exact rationals. -/
def Mat4 : Type := Fin 4 → Fin 4 → ℚ

instance : DecidableEq Mat4 := by
  unfold Mat4
  infer_instance

/-- Matrix product of the external math library (row-major float4x4
operator*), written out as the explicit 4-term dot products. -/
def matMul (A B : Mat4) : Mat4 := fun i j =>
  A i 0 * B 0 j + A i 1 * B 1 j + A i 2 * B 2 j + A i 3 * B 3 j

/-- The identity float4x4 (float4x4::Identity). -/
def matIdentity : Mat4 := fun i j => if i = j then 1 else 0

/-- Scale factory of the external math library: float4x4::Scale builds the
diagonal matrix diag(s.x, s.y, s.z, 1). -/
def scaleMat (s : Float3) : Mat4 := fun i j =>
  if i = j then
    if i = 0 then s.x else if i = 1 then s.y else if i = 2 then s.z else 1
  else 0

/-- Translation factory of the external math library: float4x4::Translation
places the offset in the fourth row (row-vector convention). -/
def translationMat (t : Float3) : Mat4 := fun i j =>
  if i = j then 1
  else if i = 3 then
    if j = 0 then t.x else if j = 1 then t.y else if j = 2 then t.z else 0
  else 0

/-- Quaternion-to-rotation-matrix conversion of the external math library
(Quaternion::ToMatrix), the standard row-major formula for q = (x, y, z, w). -/
def quatToMat (q : Float4) : Mat4 := fun i j =>
  if i = 0 then
    if j = 0 then 1 - 2 * q.y * q.y - 2 * q.z * q.z
    else if j = 1 then 2 * q.x * q.y + 2 * q.w * q.z
    else if j = 2 then 2 * q.x * q.z - 2 * q.w * q.y
    else 0
  else if i = 1 then
    if j = 0 then 2 * q.x * q.y - 2 * q.w * q.z
    else if j = 1 then 1 - 2 * q.x * q.x - 2 * q.z * q.z
    else if j = 2 then 2 * q.y * q.z + 2 * q.w * q.x
    else 0
  else if i = 2 then
    if j = 0 then 2 * q.x * q.z + 2 * q.w * q.y
    else if j = 1 then 2 * q.y * q.z - 2 * q.w * q.x
    else if j = 2 then 1 - 2 * q.x * q.x - 2 * q.y * q.y
    else 0
  else
    if j = 3 then 1 else 0

/-- Right-fold product of a list of matrices, with the identity for the empty
list; used to state what the GetMatrix parent-chain loop computes. -/
def matListProd : List Mat4 → Mat4
  | [] => matIdentity
  | A :: rest => matMul A (matListProd rest)

/-!
### Geometry loading (Model::LoadNode, GLTFLoader.cpp lines 267-560)

A primitive of the parsed document is reduced to the data the index/vertex
construction reads: the position accessor count (the number of vertices the
vertex loop appends), whether the primitive has an index accessor, the index
accessor's component type code, and the raw index values it holds.  The
per-vertex attribute assembly (normals, UVs, joints, weights) only fills the
appended records and is not inspected by any claim, so the appended vertex
records are modelled as placeholder tokens; their number is exactly the
position accessor count, as in the source.
-/

/-- tinygltf component-type code for unsigned byte accessors. -/
def compTypeUnsignedByte : ℕ := 5121

/-- tinygltf component-type code for unsigned short accessors. -/
def compTypeUnsignedShort : ℕ := 5123

/-- tinygltf component-type code for unsigned int accessors. -/
def compTypeUnsignedInt : ℕ := 5125

/-- The data of one document primitive that Model::LoadNode's index and
vertex construction reads. -/
structure PrimSrc where
  vertexCount : ℕ
  hasIndices : Bool
  idxCompType : ℕ
  idxValues : List ℕ
deriving DecidableEq, Repr

/-- The loader state threaded through Model::LoadNode: the shared staging
arrays of Model::ResourceInitData plus the count of nodes registered in
Model::LinearNodes.  Vertex records are placeholder tokens (see above). -/
structure LoadState where
  indexData : List ℕ
  vertexData0 : List ℕ
  vertexData1 : List ℕ
  linearNodes : ℕ
deriving DecidableEq, Repr

/-- The empty staging state at the beginning of Model::LoadFromFile. -/
def initLoadState : LoadState := ⟨[], [], [], 0⟩

/-- One iteration of the primitive loop of Model::LoadNode (lines 317-534):
capture vertexStart as the Uint32 cast of VertexData0.size(), append one
vertex record per position-accessor element to both vertex streams, then, if
the primitive has indices, either append every raw index plus vertexStart
(in Uint32 arithmetic) for the three supported component types, or report
failure (the source prints to std::cerr and returns from LoadNode). -/
def loadPrim (st : LoadState) (p : PrimSrc) : LoadState × Bool :=
  let vertexStart := st.vertexData0.length % U32
  let st1 : LoadState :=
    { st with
      vertexData0 := st.vertexData0 ++ List.replicate p.vertexCount 0
      vertexData1 := st.vertexData1 ++ List.replicate p.vertexCount 0 }
  if p.hasIndices then
    if p.idxCompType = compTypeUnsignedInt ∨ p.idxCompType = compTypeUnsignedShort ∨
        p.idxCompType = compTypeUnsignedByte then
      ({ st1 with
         indexData := st1.indexData ++ p.idxValues.map fun raw => (raw + vertexStart) % U32 },
       true)
    else
      (st1, false)
  else
    (st1, true)

/-- The primitive loop of Model::LoadNode: primitives are processed in order
until one reports an unsupported index component type, at which point the
return statement at line 522 abandons the rest of the loop. -/
def loadPrims : LoadState → List PrimSrc → LoadState × Bool
  | st, [] => (st, true)
  | st, p :: rest =>
    let r := loadPrim st p
    if r.2 then loadPrims r.1 rest else (r.1, false)

/-- A document node reduced to what Model::LoadNode consumes: an optional
mesh (its primitive list) and the child nodes. -/
inductive GNode where
  | mk (mesh : Option (List PrimSrc)) (children : List GNode)

mutual

/-- Model::LoadNode: children are loaded first (lines 304-310), then the
node's mesh primitives (lines 313-534).  When a primitive reports an
unsupported index component type, the early return skips the registration of
the node in LinearNodes (line 551); otherwise the node is registered.  The
mutation of the per-node transform fields is modelled separately (see ANode
below); this function tracks the shared staging arrays and the node count. -/
def loadNode (st : LoadState) : GNode → LoadState
  | GNode.mk mesh children =>
    let st1 := loadNodes st children
    match mesh with
    | none => { st1 with linearNodes := st1.linearNodes + 1 }
    | some prims =>
      let r := loadPrims st1 prims
      if r.2 then { r.1 with linearNodes := r.1.linearNodes + 1 } else r.1

/-- The loop of Model::LoadFromFile over the scene's root nodes (lines
1588-1592), also reused for the child loop inside Model::LoadNode. -/
def loadNodes (st : LoadState) : List GNode → LoadState
  | [] => st
  | n :: rest => loadNodes (loadNode st n) rest

end

/-!
### Alpha-cutoff remapping (PrepareGLTFTextureInitData, lines 86-195)

Only the four-component branch (lines 128-164) is claimed about; it is
embedded as a transformation of the list of RGBA pixels of mip level 0.
The C++ float-to-Uint8 cast truncates toward zero, modelled by the integer
floor (the value is clamped to [0, 255] before the cast, hence nonnegative).
-/

/-- One RGBA8 pixel; channels are byte values. -/
structure Pixel where
  r : ℕ
  g : ℕ
  b : ℕ
  a : ℕ
deriving DecidableEq, Repr

/-- The C++ static_cast from a nonnegative float to Uint8 truncates toward
zero, that is, takes the floor. -/
def floatToUint8 (x : ℚ) : ℕ := (⌊x⌋).toNat

/-- The per-pixel alpha update of line 151:
dst a = max(src a, Uint8(min(1/3 * src a + 2/3 * AlphaCutoff, 255))), where
AlphaCutoff has already been scaled by 255. -/
def remapAlpha (alphaCutoff255 : ℚ) (a : ℕ) : ℕ :=
  max a (floatToUint8 (min ((1 / 3 : ℚ) * a + (2 / 3 : ℚ) * alphaCutoff255) 255))

/-- The four-component branch of PrepareGLTFTextureInitData (lines 128-164):
for AlphaCutoff > 0, scale the cutoff by 255 and remap every pixel's alpha;
otherwise move the decoded image over unmodified. -/
def prepareLevel0Alpha (alphaCutoff : ℚ) (pixels : List Pixel) : List Pixel :=
  if 0 < alphaCutoff then
    pixels.map fun p => { p with a := remapAlpha (alphaCutoff * 255) p.a }
  else
    pixels

/-!
### Skin loading (Model::LoadSkins, lines 563-598)

Joint resolution goes through Model::NodeFromIndex, a depth-first search over
the loaded node forest; it is modelled as the partial map from document node
index to found node (the found node itself is represented by its index).
Inverse-bind matrices, when the accessor is present, are a verbatim copy of
accessor.count matrices (the resize-plus-memcpy of lines 592-593).
-/

/-- The skin data of the parsed document that Model::LoadSkins reads: the
joint node indices and, when the inverseBindMatrices accessor is present, the
matrices it holds (accessor.count of them). -/
structure GltfSkinSrc where
  joints : List ℕ
  inverseBindMatrices : Option (List Mat4)

/-- The loaded Skin: the resolved joint nodes (represented by their document
indices) and the copied inverse-bind matrices. -/
structure SkinM where
  Joints : List ℕ
  InverseBindMatrices : List Mat4

/-- Model::LoadSkins for one skin (lines 565-597): push each joint index that
NodeFromIndex resolves (unresolved joints are silently skipped, lines
577-584), and copy the inverse-bind matrices verbatim when the accessor is
present (lines 587-594), leaving them empty otherwise. -/
def loadSkin (nodeFromIndex : ℕ → Option ℕ) (src : GltfSkinSrc) : SkinM :=
  { Joints := src.joints.filterMap nodeFromIndex
    InverseBindMatrices :=
      match src.inverseBindMatrices with
      | some ms => ms
      | none => [] }

/-!
### Texture entries (Model::LoadTextures, lines 675-836, and the
Callbacks::LoadImageData parser hook, lines 1296-1474)

Only the cache-free path is modelled (no resource manager, no shared texture
cache), which is the path the placeholder claim is about.
-/

/-- The container kinds that Image::GetFileFormat can sniff, reduced to the
distinctions LoadImageData branches on. -/
inductive SniffedFormat where
  | unknown
  | dds
  | ktx
  | raster
deriving DecidableEq, Repr

/-- Outcome of Image::CreateFromDataBlob for a raster image: failure, or a
decoded image with its actual pixel dimensions. -/
inductive DecodeResult where
  | failed
  | ok (width height : ℕ)
deriving DecidableEq, Repr

/-- The accept/reject decision of Callbacks::LoadImageData (lines 1367-1473)
on the cache-free path: an unknown container format is rejected (lines
1369-1376); DDS and KTX bytes are stored verbatim and accepted (lines
1378-1385); a raster image is rejected when the decoder fails (lines
1392-1399) or when a positive requested width or height differs from the
decoded dimensions (lines 1402-1432), and accepted otherwise.  Returning
false hands the parser a descriptive error and fails the image load. -/
def loadImageDataAccepts (fmt : SniffedFormat) (decode : DecodeResult)
    (reqWidth reqHeight : ℤ) : Bool :=
  match fmt with
  | SniffedFormat.unknown => false
  | SniffedFormat.dds => true
  | SniffedFormat.ktx => true
  | SniffedFormat.raster =>
    match decode with
    | DecodeResult.failed => false
    | DecodeResult.ok w h =>
      if 0 < reqWidth ∧ reqWidth ≠ (w : ℤ) then false
      else if 0 < reqHeight ∧ reqHeight ≠ (h : ℤ) then false
      else true

/-- What a tinygltf image looks like to Model::LoadTextures: the stored
width/height and whether LoadImageData recorded a DDS or KTX container in the
pixel_type field (lines 1383-1384). -/
structure GImage where
  width : ℤ
  height : ℤ
  rawFormat : SniffedFormat
deriving DecidableEq, Repr

/-- The ways Model::LoadTextures can populate a texture entry. -/
inductive TexSource where
  | fromImage
  | fromDDS
  | fromKTX
  | checkerboardStub
deriving DecidableEq, Repr

/-- A loaded texture entry on the cache-free path: the texture handle, or
none when no creation branch fired. -/
structure TextureInfoM where
  pTexture : Option TexSource
deriving DecidableEq, Repr

/-- One iteration of Model::LoadTextures (lines 730-835) on the cache-free
path: create the texture from decoded pixels when the stored dimensions are
positive (lines 748-785), else from raw DDS/KTX bits (lines 786-804); then
the stub branch of lines 806-824 overwrites the entry with the fixed 32x32
checkerboard texture exactly when the Model's staging InitData pointer is
null. -/
def loadTextureEntryNoCache (initDataPresent : Bool) (img : GImage) : TextureInfoM :=
  let created : Option TexSource :=
    if 0 < img.width ∧ 0 < img.height then some TexSource.fromImage
    else if img.rawFormat = SniffedFormat.dds then some TexSource.fromDDS
    else if img.rawFormat = SniffedFormat.ktx then some TexSource.fromKTX
    else none
  if initDataPresent then { pTexture := created }
  else { pTexture := some TexSource.checkerboardStub }

/-- The texture-loading phase as Model::LoadFromFile runs it: InitData is
allocated at line 1580 before LoadTextures is invoked at line 1583 (and
LoadTextures dereferences InitData unconditionally at line 834), so every
entry is built with the staging data present. -/
def loadTexturesPhase (imgs : List GImage) : List TextureInfoM :=
  imgs.map (loadTextureEntryNoCache true)

/-!
### Node transforms, animation sampling and scene bounds
(Node::LocalMatrix lines 205-208, Node::GetMatrix lines 210-219,
Node::Update lines 221-245, Model::UpdateAnimation lines 1751-1823,
Model::CalculateBoundingBox lines 1697-1722,
Model::GetSceneDimensions lines 1724-1749)

Nodes are modelled as the data the claimed routines read and write.  The
Model instances below carry a flat list of childless root nodes — a scene
shape the loader produces for any document whose nodes have no children —
so Node::GetMatrix degenerates to Node::LocalMatrix on them and
Node::Update's child recursion and skin-joint update have no work to do.
GetMatrix is nevertheless embedded for an arbitrary parent chain, passed
explicitly as the list of ancestors from the immediate parent outward.
-/

/-- An axis-aligned bounding box (BoundBox of the external math library). -/
structure BoundBox where
  Min : Float3
  Max : Float3
deriving DecidableEq, Repr

/-- Transform of a point by a float4x4 in the row-vector convention of the
external math library: the row vector (p, 1) times the matrix, dropping w. -/
def transformPoint (mat : Mat4) (p : Float3) : Float3 :=
  ⟨p.x * mat 0 0 + p.y * mat 1 0 + p.z * mat 2 0 + mat 3 0,
   p.x * mat 0 1 + p.y * mat 1 1 + p.z * mat 2 1 + mat 3 1,
   p.x * mat 0 2 + p.y * mat 1 2 + p.z * mat 2 2 + mat 3 2⟩

/-- BoundBox::Transform of the external math library: transform the eight
corners of the box and take the componentwise bounds of the images. -/
def transformBB (bb : BoundBox) (mat : Mat4) : BoundBox :=
  let c0 := transformPoint mat ⟨bb.Min.x, bb.Min.y, bb.Min.z⟩
  let c1 := transformPoint mat ⟨bb.Min.x, bb.Min.y, bb.Max.z⟩
  let c2 := transformPoint mat ⟨bb.Min.x, bb.Max.y, bb.Min.z⟩
  let c3 := transformPoint mat ⟨bb.Min.x, bb.Max.y, bb.Max.z⟩
  let c4 := transformPoint mat ⟨bb.Max.x, bb.Min.y, bb.Min.z⟩
  let c5 := transformPoint mat ⟨bb.Max.x, bb.Min.y, bb.Max.z⟩
  let c6 := transformPoint mat ⟨bb.Max.x, bb.Max.y, bb.Min.z⟩
  let c7 := transformPoint mat ⟨bb.Max.x, bb.Max.y, bb.Max.z⟩
  ⟨minC c0 (minC c1 (minC c2 (minC c3 (minC c4 (minC c5 (minC c6 c7)))))),
   maxC c0 (maxC c1 (maxC c2 (maxC c3 (maxC c4 (maxC c5 (maxC c6 c7))))))⟩

/-- Modelled from the spec: the loaded Mesh keeps its aggregate bounding box
together with a validity flag (Mesh::IsValidBB, declared in the loader's
header which is not part of the sources at hand) and the instance transform
matrix Mesh::Transforms.matrix. -/
structure MeshM where
  BB : BoundBox
  validBB : Bool
  transform : Mat4
deriving DecidableEq

/-- A loaded Node: the transform fields read by Node::LocalMatrix, the
optional mesh, and the cached bounding data written by
Model::CalculateBoundingBox. -/
structure ANode where
  translation : Float3
  rotation : Float4
  scale : Float3
  matrix : Mat4
  mesh : Option MeshM
  aabb : BoundBox
  bvh : BoundBox
  isValidBVH : Bool
deriving DecidableEq

/-- Node::LocalMatrix (lines 205-208):
Matrix * float4x4::Scale(Scale) * Rotation.ToMatrix() *
float4x4::Translation(Translation), multiplied left to right. -/
def LocalMatrix (n : ANode) : Mat4 :=
  matMul (matMul (matMul n.matrix (scaleMat n.scale)) (quatToMat n.rotation))
    (translationMat n.translation)

/-- Node::GetMatrix (lines 210-219): start from the node's local matrix and,
walking the parent chain, right-multiply by each ancestor's local matrix. -/
def GetMatrix (n : ANode) (ancestors : List ANode) : Mat4 :=
  ancestors.foldl (fun mat p => matMul mat (LocalMatrix p)) (LocalMatrix n)

/-- Node::Update for a childless root node (lines 221-245): when the node
has a mesh, store GetMatrix into the mesh's transform; the skin-joint update
and the child recursion have nothing to do on such a node. -/
def nodeUpdate (n : ANode) : ANode :=
  match n.mesh with
  | some mm => { n with mesh := some { mm with transform := GetMatrix n [] } }
  | none => n

/-- The interpolation kinds AnimationSampler records (LoadAnimations lines
1151-1166). -/
inductive InterpolationType where
  | linear
  | step
  | cubicspline
deriving DecidableEq, Repr

/-- A loaded AnimationSampler. -/
structure ASampler where
  interpolation : InterpolationType
  inputs : List ℚ
  outputsVec4 : List Float4
deriving DecidableEq, Repr

/-- The animation channel target paths kept by LoadAnimations. -/
inductive PathType where
  | translation
  | rotation
  | scale
deriving DecidableEq, Repr

/-- A loaded AnimationChannel; the target node pointer is modelled by the
node's position in the model's node list. -/
structure AChannel where
  pathType : PathType
  samplerIndex : ℕ
  nodeIdx : ℕ
deriving DecidableEq, Repr

/-- A loaded Animation (only the fields UpdateAnimation reads). -/
structure Animation where
  samplers : List ASampler
  channels : List AChannel
deriving DecidableEq, Repr

/-- The componentwise linear interpolation lerp(a, b, u) of the external math
library, applied to float4 keyframe values (lines 1780 and 1787). -/
def lerp4 (a b : Float4) (u : ℚ) : Float4 :=
  ⟨a.x * (1 - u) + b.x * u, a.y * (1 - u) + b.y * u,
   a.z * (1 - u) + b.z * u, a.w * (1 - u) + b.w * u⟩

/-- The body of the UpdateAnimation switch (lines 1776-1809) once an
interval has been selected: translation and scale channels store the lerp of
the two bracketing outputs, rotation channels store the value of the
external normalize(slerp(q1, q2, u)), abstracted as the function rotFn since
spherical interpolation is transcendental and lives in the external math
library. -/
def applyChannelPath (rotFn : Float4 → Float4 → ℚ → Float4) (path : PathType)
    (o0 o1 : Float4) (u : ℚ) (n : ANode) : ANode :=
  match path with
  | PathType.translation => { n with translation := float3of (lerp4 o0 o1 u) }
  | PathType.scale => { n with scale := float3of (lerp4 o0 o1 u) }
  | PathType.rotation => { n with rotation := rotFn o0 o1 u }

/-- The default float4. -/
def zero4 : Float4 := ⟨0, 0, 0, 0⟩

/-- The keyframe-interval loop of Model::UpdateAnimation (lines 1769-1813)
for one channel: for every i below Inputs.size() - 1, when
Inputs[i] <= time <= Inputs[i+1], compute
u = max(0, time - Inputs[i]) / (Inputs[i+1] - Inputs[i]) and, when u <= 1,
apply the channel update and record that something was updated.  The loop
has no break, exactly as in the source.  Note that no branch consults the
sampler's interpolation kind. -/
def applyChannelSampler (rotFn : Float4 → Float4 → ℚ → Float4) (sampler : ASampler)
    (time : ℚ) (path : PathType) (node : ANode) : ANode × Bool :=
  (List.range (sampler.inputs.length - 1)).foldl
    (fun acc i =>
      if sampler.inputs.getD i 0 ≤ time ∧ time ≤ sampler.inputs.getD (i + 1) 0 then
        let u := max 0 (time - sampler.inputs.getD i 0) /
          (sampler.inputs.getD (i + 1) 0 - sampler.inputs.getD i 0)
        if u ≤ 1 then
          (applyChannelPath rotFn path (sampler.outputsVec4.getD i zero4)
            (sampler.outputsVec4.getD (i + 1) zero4) u acc.1, true)
        else acc
      else acc)
    (node, false)

/-- The channel loop of Model::UpdateAnimation (lines 1760-1814): look up the
channel's sampler, skip the channel when the sampler has more inputs than
outputs (lines 1764-1767), otherwise run the interval loop on the channel's
target node, accumulating the updated flag. -/
def updateChannels (rotFn : Float4 → Float4 → ℚ → Float4) (nodes : List ANode)
    (anim : Animation) (time : ℚ) : List ANode × Bool :=
  anim.channels.foldl
    (fun acc ch =>
      let sampler := anim.samplers.getD ch.samplerIndex ⟨InterpolationType.linear, [], []⟩
      if sampler.outputsVec4.length < sampler.inputs.length then acc
      else
        let node := acc.1.getD ch.nodeIdx
          ⟨⟨0, 0, 0⟩, ⟨0, 0, 0, 1⟩, ⟨1, 1, 1⟩, matIdentity, none,
           ⟨⟨0, 0, 0⟩, ⟨0, 0, 0⟩⟩, ⟨⟨0, 0, 0⟩, ⟨0, 0, 0⟩⟩, false⟩
        let r := applyChannelSampler rotFn sampler time ch.pathType node
        (acc.1.set ch.nodeIdx r.1, acc.2 || r.2))
    (nodes, false)

/-- The in-memory Model as far as the claimed routines observe it: the node
list (childless roots, also serving as LinearNodes), the animations, and the
cached scene dimensions. -/
structure ModelSt where
  nodes : List ANode
  animations : List Animation
  dimensionsMin : Float3
  dimensionsMax : Float3
deriving DecidableEq

/-- The bounds guard of Model::UpdateAnimation (lines 1753-1757):
index > static_cast of Animations.size() to Uint32, minus 1 — the
subtraction is unsigned 32-bit and wraps around for an empty list. -/
def updateAnimationRejects (numAnimations index : ℕ) : Bool :=
  decide (index > (numAnimations % U32 + (U32 - 1)) % U32)

/-- Model::UpdateAnimation (lines 1751-1823): when the guard rejects the
index, warn and return with the model untouched; otherwise run the channel
loop and, when at least one channel value was written, run Node::Update on
every root node.  No bounds recomputation happens in either case. -/
def updateAnimation (rotFn : Float4 → Float4 → ℚ → Float4) (m : ModelSt)
    (index : ℕ) (time : ℚ) : ModelSt :=
  if updateAnimationRejects m.animations.length index then m
  else
    let anim := m.animations.getD index ⟨[], []⟩
    let r := updateChannels rotFn m.nodes anim time
    if r.2 then { m with nodes := r.1.map nodeUpdate }
    else { m with nodes := r.1 }

/-- The mesh-bounding-box union loop of Model::LoadNode (lines 536-546):
starting from the first primitive's box, fold the componentwise min of the
minima and max of the maxima over the remaining primitives. -/
def meshBBUnion (first : BoundBox) (rest : List BoundBox) : BoundBox :=
  rest.foldl (fun acc p => ⟨minC acc.Min p.Min, maxC acc.Max p.Max⟩) first

/-- Model::CalculateBoundingBox for a childless root node (lines 1697-1722):
when the node has a mesh with a valid bounding box, the node's AABB is the
mesh box transformed by the node's world matrix and, the child list being
empty, the volume-hierarchy box is that AABB and is marked valid. -/
def calculateBoundingBoxLeaf (n : ANode) : ANode :=
  match n.mesh with
  | some mm =>
    if mm.validBB then
      let box := transformBB mm.BB (GetMatrix n [])
      { n with aabb := box, bvh := box, isValidBVH := true }
    else n
  | none => n

/-- The dimension fold of Model::GetSceneDimensions (lines 1732-1742): start
from (+FLT_MAX, -FLT_MAX) and fold the componentwise min/max of every node
whose volume-hierarchy box is valid. -/
def sceneDimsFold (nodes : List ANode) : Float3 × Float3 :=
  nodes.foldl
    (fun d n => if n.isValidBVH then (minC d.1 n.bvh.Min, maxC d.2 n.bvh.Max) else d)
    (⟨fltMax, fltMax, fltMax⟩, ⟨-fltMax, -fltMax, -fltMax⟩)

/-- Model::GetSceneDimensions (lines 1724-1749) for a model of childless
roots: recompute every node's volume hierarchy, then fold the dimensions. -/
def getSceneDimensions (m : ModelSt) : ModelSt :=
  let ns := m.nodes.map calculateBoundingBoxLeaf
  let d := sceneDimsFold ns
  { m with nodes := ns, dimensionsMin := d.1, dimensionsMax := d.2 }

/-!
### Concrete instances used to settle the claims
-/

/-- A concrete interpretation of the external normalize-slerp composition,
used where a rotation function must be fixed; translation-channel facts do
not depend on it. -/
def exRotFn : Float4 → Float4 → ℚ → Float4 := fun q1 _ _ => q1

/-- A node with identity transform and no mesh. -/
def originNode : ANode :=
  ⟨⟨0, 0, 0⟩, ⟨0, 0, 0, 1⟩, ⟨1, 1, 1⟩, matIdentity, none,
   ⟨⟨0, 0, 0⟩, ⟨0, 0, 0⟩⟩, ⟨⟨0, 0, 0⟩, ⟨0, 0, 0⟩⟩, false⟩

/-- A STEP sampler with keyframes at times 0 and 1 and distinct outputs. -/
def stepSampler : ASampler :=
  ⟨InterpolationType.step, [0, 1], [⟨0, 0, 0, 0⟩, ⟨2, 2, 2, 0⟩]⟩

/-- A loader state that already holds two vertices. -/
def exStC1 : LoadState := ⟨[], [0, 0], [0, 0], 0⟩

/-- A primitive with an unsigned-byte index accessor. -/
def exPrimC1 : PrimSrc := ⟨3, true, compTypeUnsignedByte, [0, 1, 2]⟩

/-- A primitive whose index accessor uses component type 5126 (FLOAT), which
the LoadNode switch does not support. -/
def primBadIndexType : PrimSrc := ⟨3, true, 5126, [0, 1, 2]⟩

/-- A well-formed primitive with an unsigned-short index accessor. -/
def primGoodIndexType : PrimSrc := ⟨3, true, compTypeUnsignedShort, [0, 1, 2]⟩

/-- A two-root scene whose first node carries the unsupported primitive. -/
def exSceneC2 : List GNode :=
  [GNode.mk (some [primBadIndexType]) [], GNode.mk (some [primGoodIndexType]) []]

/-- A unit-cube mesh node at the origin with valid bounds. -/
def exNodeC7 : ANode :=
  { originNode with
    mesh := some ⟨⟨⟨0, 0, 0⟩, ⟨1, 1, 1⟩⟩, true, matIdentity⟩
    aabb := ⟨⟨0, 0, 0⟩, ⟨1, 1, 1⟩⟩
    bvh := ⟨⟨0, 0, 0⟩, ⟨1, 1, 1⟩⟩
    isValidBVH := true }

/-- A translation animation moving the node from the origin to (10,0,0). -/
def exAnimC7 : Animation :=
  { samplers := [⟨InterpolationType.linear, [0, 1], [⟨0, 0, 0, 0⟩, ⟨10, 0, 0, 0⟩]⟩]
    channels := [⟨PathType.translation, 0, 0⟩] }

/-- A loaded model whose cached dimensions agree with its single node. -/
def exM7 : ModelSt :=
  { nodes := [exNodeC7], animations := [exAnimC7]
    dimensionsMin := ⟨0, 0, 0⟩, dimensionsMax := ⟨1, 1, 1⟩ }

/-- A model with one (empty) animation, for exercising the index guard. -/
def exM10 : ModelSt :=
  { nodes := [originNode], animations := [⟨[], []⟩]
    dimensionsMin := ⟨0, 0, 0⟩, dimensionsMax := ⟨0, 0, 0⟩ }

/-- A node lookup that resolves document index 7 only. -/
def exResolve : ℕ → Option ℕ := fun i => if i = 7 then some 7 else none

/-- A skin source with two joints of which only the second resolves, and an
inverse-bind accessor holding one matrix per document joint. -/
def exSkinC9 : GltfSkinSrc := ⟨[5, 7], some [matIdentity, matIdentity]⟩

/-- An image whose decode failed: tinygltf keeps width = height = 0 and no
raw-container marker. -/
def failedImage : GImage := ⟨0, 0, SniffedFormat.raster⟩

/-- The C7 node once the animation has moved it to (5,0,0). -/
def movedNodeC7 : ANode := { exNodeC7 with translation := ⟨5, 0, 0⟩ }

/-- What CalculateBoundingBox makes of the moved node: bounds shifted by the
new translation. -/
def recomputedNodeC7 : ANode :=
  { movedNodeC7 with
    mesh := some ⟨⟨⟨0, 0, 0⟩, ⟨1, 1, 1⟩⟩, true, translationMat ⟨5, 0, 0⟩⟩
    aabb := ⟨⟨5, 0, 0⟩, ⟨6, 1, 1⟩⟩
    bvh := ⟨⟨5, 0, 0⟩, ⟨6, 1, 1⟩⟩
    isValidBVH := true }

/-!
### Helper lemmas
-/

theorem matMul_assoc (A B C : Mat4) :
    matMul (matMul A B) C = matMul A (matMul B C) := by
  funext i j
  simp only [matMul]
  ring

theorem matMul_identity_right (A : Mat4) : matMul A matIdentity = A := by
  funext i j
  fin_cases j <;> simp +decide [matMul, matIdentity]

theorem matMul_identity_left (A : Mat4) : matMul matIdentity A = A := by
  funext i j
  fin_cases i <;> simp +decide [matMul, matIdentity]

theorem scaleMat_unit : scaleMat ⟨1, 1, 1⟩ = matIdentity := by
  funext i j
  fin_cases i <;> fin_cases j <;> simp +decide [scaleMat, matIdentity]

theorem quatToMat_identity : quatToMat ⟨0, 0, 0, 1⟩ = matIdentity := by
  funext i j
  fin_cases i <;> fin_cases j <;> simp +decide [quatToMat, matIdentity]

theorem GetMatrix_root_unit (n : ANode) (hm : n.matrix = matIdentity)
    (hs : n.scale = ⟨1, 1, 1⟩) (hr : n.rotation = ⟨0, 0, 0, 1⟩) :
    GetMatrix n [] = translationMat n.translation := by
  show LocalMatrix n = _
  unfold LocalMatrix
  rw [hm, hs, hr, scaleMat_unit, quatToMat_identity, matMul_identity_right,
    matMul_identity_right, matMul_identity_left]

theorem calculateBoundingBoxLeaf_of_mesh (n : ANode) (mm : MeshM) (h : n.mesh = some mm)
    (hv : mm.validBB = true) :
    calculateBoundingBoxLeaf n =
      { n with
        aabb := transformBB mm.BB (GetMatrix n [])
        bvh := transformBB mm.BB (GetMatrix n [])
        isValidBVH := true } := by
  unfold calculateBoundingBoxLeaf
  rw [h]
  simp [hv]

theorem loadPrim_linearNodes (st : LoadState) (p : PrimSrc) :
    (loadPrim st p).1.linearNodes = st.linearNodes := by
  unfold loadPrim
  dsimp only
  split
  · split
    · rfl
    · rfl
  · rfl

theorem loadPrims_linearNodes (prims : List PrimSrc) :
    ∀ st : LoadState, (loadPrims st prims).1.linearNodes = st.linearNodes := by
  induction prims with
  | nil => intro st; rfl
  | cons p rest ih =>
    intro st
    unfold loadPrims
    dsimp only
    split
    · exact (ih _).trans (loadPrim_linearNodes st p)
    · exact loadPrim_linearNodes st p

theorem foldl_matMul_map (f : ANode → Mat4) :
    ∀ (l : List ANode) (a : Mat4),
      l.foldl (fun m p => matMul m (f p)) a = matMul a (matListProd (l.map f)) := by
  intro l
  induction l with
  | nil =>
    intro a
    simp [matListProd, matMul_identity_right]
  | cons p t ih =>
    intro a
    simp only [List.foldl_cons, List.map_cons, matListProd]
    rw [ih, matMul_assoc]

theorem meshBBUnion_split :
    ∀ (rest : List BoundBox) (first : BoundBox),
      meshBBUnion first rest =
        ⟨(rest.map BoundBox.Min).foldl minC first.Min,
         (rest.map BoundBox.Max).foldl maxC first.Max⟩ := by
  intro rest
  induction rest with
  | nil => intro first; rfl
  | cons b t ih =>
    intro first
    simp only [meshBBUnion, List.foldl_cons, List.map_cons]
    exact ih ⟨minC first.Min b.Min, maxC first.Max b.Max⟩

theorem sceneDims_foldl_split :
    ∀ (ns : List ANode) (d : Float3 × Float3),
      ns.foldl
          (fun d n => if n.isValidBVH then (minC d.1 n.bvh.Min, maxC d.2 n.bvh.Max) else d)
          d =
        ((ns.filter fun n => n.isValidBVH).foldl (fun a n => minC a n.bvh.Min) d.1,
         (ns.filter fun n => n.isValidBVH).foldl (fun a n => maxC a n.bvh.Max) d.2) := by
  intro ns
  induction ns with
  | nil => intro d; rfl
  | cons n t ih =>
    intro d
    by_cases h : n.isValidBVH = true
    · simp only [List.foldl_cons, List.filter_cons, h, if_pos]
      exact ih (minC d.1 n.bvh.Min, maxC d.2 n.bvh.Max)
    · simp only [List.foldl_cons, List.filter_cons, h, if_neg, Bool.false_eq_true,
        not_false_eq_true]
      exact ih d

theorem filterMap_length_allSome {α β : Type} (f : α → Option β) :
    ∀ l : List α, (∀ a ∈ l, (f a).isSome = true) → (l.filterMap f).length = l.length := by
  intro l
  induction l with
  | nil => intro _; rfl
  | cons a t ih =>
    intro h
    obtain ⟨b, hb⟩ := Option.isSome_iff_exists.mp (h a (List.mem_cons_self a t))
    rw [List.filterMap_cons_some hb, List.length_cons, List.length_cons,
      ih fun x hx => h x (List.mem_cons_of_mem a hx)]

theorem filterMap_get?_allSome {α β : Type} (f : α → Option β) :
    ∀ (l : List α), (∀ a ∈ l, (f a).isSome = true) →
      ∀ i : ℕ, (l.filterMap f).get? i = (l.get? i).bind f := by
  intro l
  induction l with
  | nil => intro _ i; cases i <;> rfl
  | cons a t ih =>
    intro h i
    obtain ⟨b, hb⟩ := Option.isSome_iff_exists.mp (h a (List.mem_cons_self a t))
    rw [List.filterMap_cons_some hb]
    cases i with
    | zero => simp [hb]
    | succ i => simpa using ih (fun x hx => h x (List.mem_cons_of_mem a hx)) i

theorem remapAlpha_eq_floor_max (c : ℚ) (a : ℕ) (hc1 : c ≤ 1)
    (ha : a ≤ 255) :
    remapAlpha (c * 255) a =
      (⌊max (a : ℚ) ((1 / 3 : ℚ) * a + (2 / 3 : ℚ) * (c * 255))⌋).toNat := by
  unfold remapAlpha floatToUint8
  have haq : (a : ℚ) ≤ 255 := by exact_mod_cast ha
  have hle : (1 / 3 : ℚ) * a + (2 / 3 : ℚ) * (c * 255) ≤ 255 := by nlinarith
  rw [min_eq_left hle]
  rcases le_total ((a : ℚ)) ((1 / 3 : ℚ) * a + (2 / 3 : ℚ) * (c * 255)) with h | h
  · rw [max_eq_right h]
    have hz : (a : ℤ) ≤ ⌊(1 / 3 : ℚ) * a + (2 / 3 : ℚ) * (c * 255)⌋ := by
      apply Int.le_floor.mpr
      push_cast
      exact h
    omega
  · rw [max_eq_left h]
    have hz : ⌊(1 / 3 : ℚ) * a + (2 / 3 : ℚ) * (c * 255)⌋ ≤ (a : ℤ) := by
      have hfl := Int.floor_le_floor h
      rwa [Int.floor_natCast] at hfl
    rw [Int.floor_natCast]
    omega

theorem exM7_update_eq :
    updateAnimation exRotFn exM7 0 (1 / 2) = { exM7 with nodes := [nodeUpdate movedNodeC7] } := by
  norm_num [updateAnimation, updateAnimationRejects, exM7, updateChannels, exAnimC7,
    applyChannelSampler, applyChannelPath, lerp4, float3of, List.range_succ, zero4, movedNodeC7]

theorem exM7_moved_world : GetMatrix (nodeUpdate movedNodeC7) [] = translationMat ⟨5, 0, 0⟩ := by
  rw [GetMatrix_root_unit (nodeUpdate movedNodeC7)
    (by simp [nodeUpdate, movedNodeC7, exNodeC7, originNode])
    (by simp [nodeUpdate, movedNodeC7, exNodeC7, originNode])
    (by simp [nodeUpdate, movedNodeC7, exNodeC7, originNode])]
  simp [nodeUpdate, movedNodeC7, exNodeC7, originNode]

theorem exM7_moved_box :
    transformBB ⟨⟨0, 0, 0⟩, ⟨1, 1, 1⟩⟩ (translationMat ⟨5, 0, 0⟩) = ⟨⟨5, 0, 0⟩, ⟨6, 1, 1⟩⟩ := by
  simp +decide [transformBB, transformPoint, translationMat, minC, maxC]
  norm_num

theorem exM7_leaf_recompute :
    calculateBoundingBoxLeaf (nodeUpdate movedNodeC7) = recomputedNodeC7 := by
  have hmesh : (nodeUpdate movedNodeC7).mesh =
      some ⟨⟨⟨0, 0, 0⟩, ⟨1, 1, 1⟩⟩, true, GetMatrix movedNodeC7 []⟩ := by
    simp [nodeUpdate, movedNodeC7, exNodeC7, originNode]
  rw [calculateBoundingBoxLeaf_of_mesh _ _ hmesh rfl, exM7_moved_world, exM7_moved_box]
  simp [nodeUpdate, movedNodeC7, exNodeC7, originNode, recomputedNodeC7, GetMatrix_root_unit]

theorem exM7_recomputed_dims :
    (getSceneDimensions { exM7 with nodes := [nodeUpdate movedNodeC7] }).dimensionsMin =
      ⟨5, 0, 0⟩ := by
  unfold getSceneDimensions
  dsimp only
  rw [show ([nodeUpdate movedNodeC7].map calculateBoundingBoxLeaf) = [recomputedNodeC7] from by
    rw [List.map_cons, List.map_nil, exM7_leaf_recompute]]
  simp [sceneDimsFold, recomputedNodeC7, movedNodeC7, exNodeC7, originNode, minC, maxC, fltMax]
  norm_num

/-!
### The claims
-/

/-- C1: for every primitive whose index accessor uses one of the three
supported unsigned component types, every value appended to the shared index
array is the raw accessor value plus the vertex-start offset — the number of
vertices already held by the shared vertex array when the primitive's
processing begins — reduced by the Uint32 arithmetic of the source, which is
the plain sum whenever it fits in 32 bits. -/
theorem c1_index_offset (st : LoadState) (p : PrimSrc)
    (hind : p.hasIndices = true)
    (hty : p.idxCompType = compTypeUnsignedInt ∨ p.idxCompType = compTypeUnsignedShort ∨
      p.idxCompType = compTypeUnsignedByte) :
    (loadPrim st p).1.indexData =
      st.indexData ++ p.idxValues.map (fun raw => (raw + st.vertexData0.length % U32) % U32) ∧
    (loadPrim st p).2 = true ∧
    ∀ raw ∈ p.idxValues, raw + st.vertexData0.length < U32 →
      (raw + st.vertexData0.length % U32) % U32 = raw + st.vertexData0.length := by
  refine ⟨?_, ?_, ?_⟩
  · unfold loadPrim
    rw [if_pos hind, if_pos hty]
  · unfold loadPrim
    rw [if_pos hind, if_pos hty]
  · intro raw _ hlt
    unfold U32 at hlt ⊢
    omega

/-- Witness for C1: a primitive with three unsigned-byte indices processed
after two vertices are already staged emits 2, 3, 4. -/
theorem c1_index_offset_witness :
    exPrimC1.hasIndices = true ∧
    (loadPrim exStC1 exPrimC1).1.indexData = [2, 3, 4] ∧
    ((loadPrim exStC1 exPrimC1).1.indexData =
        exStC1.indexData ++ exPrimC1.idxValues.map
          (fun raw => (raw + exStC1.vertexData0.length % U32) % U32) ∧
      (loadPrim exStC1 exPrimC1).2 = true ∧
      ∀ raw ∈ exPrimC1.idxValues, raw + exStC1.vertexData0.length < U32 →
        (raw + exStC1.vertexData0.length % U32) % U32 = raw + exStC1.vertexData0.length) :=
  ⟨rfl, by decide, c1_index_offset exStC1 exPrimC1 rfl (Or.inr (Or.inr rfl))⟩

/-- C2 counterexample: a scene whose first root node carries an index
accessor of component type 5126 (FLOAT) still loads to completion — the
second root node is registered and its indices are emitted — so the
unsupported component type does not abort the whole load and a partially
populated model is produced (with the bad primitive's three vertices left in
the shared vertex array). -/
theorem c2_counterexample :
    (loadPrims initLoadState [primBadIndexType]).2 = false ∧
    (loadNodes initLoadState exSceneC2).linearNodes = 1 ∧
    (loadNodes initLoadState exSceneC2).indexData = [3, 4, 5] ∧
    (loadNodes initLoadState exSceneC2).vertexData0.length = 6 := by
  decide

/-- C2 amended: an unsupported index component type makes LoadNode return
early — the node is not registered in LinearNodes (its vertices, already
appended, stay in the shared array) — and the load continues with the
remaining nodes; the load as a whole does not fail. -/
theorem c2_unsupported_index_skips_node (st : LoadState) (prims : List PrimSrc)
    (rest : List GNode) (h : (loadPrims st prims).2 = false) :
    loadNode st (GNode.mk (some prims) []) = (loadPrims st prims).1 ∧
    (loadPrims st prims).1.linearNodes = st.linearNodes ∧
    loadNodes st (GNode.mk (some prims) [] :: rest) =
      loadNodes (loadPrims st prims).1 rest := by
  have h1 : loadNode st (GNode.mk (some prims) []) = (loadPrims st prims).1 := by
    unfold loadNode loadNodes
    simp [h]
  refine ⟨h1, loadPrims_linearNodes prims st, ?_⟩
  rw [← h1]
  rfl

/-- Witness for C2's amended statement, at the concrete bad primitive. -/
theorem c2_unsupported_index_skips_node_witness :
    (loadPrims initLoadState [primBadIndexType]).2 = false ∧
    (loadNode initLoadState (GNode.mk (some [primBadIndexType]) []) =
        (loadPrims initLoadState [primBadIndexType]).1 ∧
      (loadPrims initLoadState [primBadIndexType]).1.linearNodes = initLoadState.linearNodes ∧
      loadNodes initLoadState (GNode.mk (some [primBadIndexType]) [] :: []) =
        loadNodes (loadPrims initLoadState [primBadIndexType]).1 []) :=
  ⟨by decide, c2_unsupported_index_skips_node initLoadState [primBadIndexType] [] (by decide)⟩

/-- C3: a node's local matrix is exactly
Matrix * Scale(scale) * RotationMatrix(rotation) * Translation(translation)
in that composition order, and the world matrix produced by the GetMatrix
parent-chain walk is the local matrix multiplied on the right by the
ancestors' local matrices in parent order. -/
theorem c3_local_and_world_matrix :
    (∀ n : ANode,
      LocalMatrix n =
        matMul (matMul (matMul n.matrix (scaleMat n.scale)) (quatToMat n.rotation))
          (translationMat n.translation)) ∧
    (∀ (n : ANode) (ancestors : List ANode),
      GetMatrix n ancestors =
        matMul (LocalMatrix n) (matListProd (ancestors.map LocalMatrix))) :=
  ⟨fun _ => rfl, fun n ancestors => foldl_matMul_map LocalMatrix ancestors (LocalMatrix n)⟩

/-- C4: for a freshly decoded four-component image with positive alpha
cutoff, every pixel's new alpha is the truncation of
max(old alpha, 1/3 * old alpha + 2/3 * cutoff * 255); a cutoff at most zero
takes the pixel data over unmodified; with cutoff 0.5 an input alpha of 0
becomes 85 and an input alpha of 255 stays 255. -/
theorem c4_alpha_remap (alphaCutoff : ℚ) (pixels : List Pixel)
    (hb : ∀ p ∈ pixels, p.a ≤ 255) :
    (0 < alphaCutoff → alphaCutoff ≤ 1 →
      prepareLevel0Alpha alphaCutoff pixels =
        pixels.map fun p =>
          { p with a := (⌊max (p.a : ℚ)
              ((1 / 3 : ℚ) * p.a + (2 / 3 : ℚ) * (alphaCutoff * 255))⌋).toNat }) ∧
    (alphaCutoff ≤ 0 → prepareLevel0Alpha alphaCutoff pixels = pixels) ∧
    remapAlpha ((1 / 2 : ℚ) * 255) 0 = 85 ∧
    remapAlpha ((1 / 2 : ℚ) * 255) 255 = 255 := by
  refine ⟨?_, ?_,
    by norm_num [remapAlpha, floatToUint8]
       all_goals decide,
    by norm_num [remapAlpha, floatToUint8]⟩
  · intro h0 h1
    unfold prepareLevel0Alpha
    rw [if_pos h0]
    exact List.map_congr_left fun p hp => by
      rw [remapAlpha_eq_floor_max alphaCutoff p.a h1 (hb p hp)]
  · intro hle
    unfold prepareLevel0Alpha
    rw [if_neg (not_lt.mpr hle)]

/-- Witness for C4: remapping one pixel of alpha 0 at cutoff one half. -/
theorem c4_alpha_remap_witness :
    (∀ p ∈ [(⟨9, 9, 9, 0⟩ : Pixel)], p.a ≤ 255) ∧
    prepareLevel0Alpha (1 / 2) [(⟨9, 9, 9, 0⟩ : Pixel)] = [⟨9, 9, 9, 85⟩] := by
  refine ⟨by decide, ?_⟩
  have h := (c4_alpha_remap (1 / 2) [(⟨9, 9, 9, 0⟩ : Pixel)] (by decide)).1
    (by norm_num) (by norm_num)
  rw [h]
  norm_num
  all_goals decide

/-- C5: a raster image that fails to decode, or whose decoded dimensions
differ from the positive requested ones, is rejected by the LoadImageData
hook; and on the path LoadFromFile actually takes (staging InitData present),
the texture entry built for such an image holds no texture at all — in
particular it is not the checkerboard stub, whose creation branch requires
the staging data to be absent. -/
theorem c5_failed_image_no_placeholder :
    loadImageDataAccepts SniffedFormat.raster DecodeResult.failed 0 0 = false ∧
    loadImageDataAccepts SniffedFormat.raster (DecodeResult.ok 64 64) 32 32 = false ∧
    loadTexturesPhase [failedImage] = [{ pTexture := none }] ∧
    ({ pTexture := none } : TextureInfoM) ≠ { pTexture := some TexSource.checkerboardStub } := by
  refine ⟨rfl, by decide, rfl, by decide⟩

/-- C6 counterexample: a STEP sampler queried halfway between its two
keyframes writes the linear interpolation (1,1,1) of the outputs, not the
left keyframe value (0,0,0). -/
theorem c6_counterexample :
    ((applyChannelSampler exRotFn stepSampler (1 / 2) PathType.translation originNode).1).translation =
      ⟨1, 1, 1⟩ ∧
    float3of (stepSampler.outputsVec4.getD 0 zero4) = ⟨0, 0, 0⟩ ∧
    ((⟨1, 1, 1⟩ : Float3) ≠ ⟨0, 0, 0⟩) ∧
    stepSampler.interpolation = InterpolationType.step ∧
    stepSampler.inputs.getD 0 0 < (1 / 2 : ℚ) ∧ (1 / 2 : ℚ) < stepSampler.inputs.getD 1 0 := by
  refine ⟨?_, rfl, by norm_num [Float3.mk.injEq], rfl, by norm_num [stepSampler],
    by norm_num [stepSampler]⟩
  norm_num [applyChannelSampler, stepSampler, applyChannelPath, lerp4, float3of, originNode,
    List.range_succ, zero4]

/-- C6 amended: UpdateAnimation never consults the sampler's interpolation
kind — a STEP sampler is evaluated exactly like a LINEAR one, so a time
inside a bracketing interval yields the linear interpolation of the two
keyframes (the left keyframe is produced only where the interpolation factor
is zero). -/
theorem c6_interpolation_kind_unused (rotFn : Float4 → Float4 → ℚ → Float4)
    (k k' : InterpolationType) (ins : List ℚ) (outs : List Float4) (time : ℚ)
    (path : PathType) (node : ANode) :
    applyChannelSampler rotFn ⟨k, ins, outs⟩ time path node =
      applyChannelSampler rotFn ⟨k', ins, outs⟩ time path node := rfl

/-- C7 counterexample: an animation step that moves the model's only node
from the origin to (5,0,0) leaves the cached scene dimensions at their old
values, and those stale dimensions disagree with what GetSceneDimensions
would now compute — the bounds are not recomputed by UpdateAnimation. -/
theorem c7_counterexample :
    ((updateAnimation exRotFn exM7 0 (1 / 2)).nodes.getD 0 originNode).translation ≠
      ((exM7.nodes.getD 0 originNode).translation) ∧
    (updateAnimation exRotFn exM7 0 (1 / 2)).dimensionsMin = exM7.dimensionsMin ∧
    (updateAnimation exRotFn exM7 0 (1 / 2)).dimensionsMax = exM7.dimensionsMax ∧
    (getSceneDimensions (updateAnimation exRotFn exM7 0 (1 / 2))).dimensionsMin ≠
      (updateAnimation exRotFn exM7 0 (1 / 2)).dimensionsMin := by
  rw [exM7_update_eq]
  refine ⟨?_, rfl, rfl, ?_⟩
  · simp [nodeUpdate, movedNodeC7, exNodeC7, originNode, exM7]
  · rw [exM7_recomputed_dims]
    simp [exM7]

/-- C7 amended: UpdateAnimation mutates node transforms in place (running
Node::Update on every root when at least one channel value changed) but
never recomputes the scene bounding volumes: the cached dimensions and the
animation list are preserved by every call; the bounds are computed by
GetSceneDimensions, which LoadFromFile invokes once after initial pose
assignment. -/
theorem c7_no_bounds_recompute (rotFn : Float4 → Float4 → ℚ → Float4) (m : ModelSt)
    (index : ℕ) (time : ℚ) :
    (updateAnimation rotFn m index time).dimensionsMin = m.dimensionsMin ∧
    (updateAnimation rotFn m index time).dimensionsMax = m.dimensionsMax ∧
    (updateAnimation rotFn m index time).animations = m.animations := by
  unfold updateAnimation
  split
  · exact ⟨rfl, rfl, rfl⟩
  · dsimp only
    split
    · exact ⟨rfl, rfl, rfl⟩
    · exact ⟨rfl, rfl, rfl⟩

/-- C8: the mesh bounding box built by LoadNode is the componentwise union
of its primitives' boxes (min of the minima, max of the maxima, folded from
the first primitive), and the scene-dimension fold of GetSceneDimensions is
the componentwise min/max over exactly the nodes whose volume-hierarchy box
is valid, folded from the FLT_MAX sentinels. -/
theorem c8_bounding_box_union :
    (∀ (first : BoundBox) (rest : List BoundBox),
      meshBBUnion first rest =
        ⟨(rest.map BoundBox.Min).foldl minC first.Min,
         (rest.map BoundBox.Max).foldl maxC first.Max⟩) ∧
    (∀ ns : List ANode,
      sceneDimsFold ns =
        ((ns.filter fun n => n.isValidBVH).foldl (fun a n => minC a n.bvh.Min)
            ⟨fltMax, fltMax, fltMax⟩,
         (ns.filter fun n => n.isValidBVH).foldl (fun a n => maxC a n.bvh.Max)
            ⟨-fltMax, -fltMax, -fltMax⟩)) :=
  ⟨fun first rest => meshBBUnion_split rest first,
   fun ns => sceneDims_foldl_split ns _⟩

/-- C9 counterexample: a skin with document joints [5, 7] of which index 5
does not resolve, and an inverse-bind accessor holding one matrix per
document joint, loads with one joint but two inverse-bind matrices — the
two sequences do not have the same length when a joint is skipped. -/
theorem c9_counterexample :
    (loadSkin exResolve exSkinC9).Joints = [7] ∧
    (loadSkin exResolve exSkinC9).Joints.length = 1 ∧
    (loadSkin exResolve exSkinC9).InverseBindMatrices.length = 2 ∧
    (loadSkin exResolve exSkinC9).Joints.length ≠
      (loadSkin exResolve exSkinC9).InverseBindMatrices.length := by
  refine ⟨rfl, rfl, rfl, by decide⟩

/-- C9 amended: the inverse-bind list always copies exactly the accessor's
element count, while the joint list keeps only the joints that resolve; the
two sequences have the same length and are index-aligned when every joint
index resolves and the accessor holds one matrix per document joint. -/
theorem c9_aligned_when_all_resolve (resolve : ℕ → Option ℕ) (src : GltfSkinSrc)
    (ms : List Mat4) (hall : ∀ j ∈ src.joints, (resolve j).isSome = true)
    (hibm : src.inverseBindMatrices = some ms) (hlen : ms.length = src.joints.length) :
    (loadSkin resolve src).Joints.length = (loadSkin resolve src).InverseBindMatrices.length ∧
    ∀ i : ℕ,
      (loadSkin resolve src).Joints.get? i = (src.joints.get? i).bind resolve ∧
      (loadSkin resolve src).InverseBindMatrices.get? i = ms.get? i := by
  unfold loadSkin
  rw [hibm]
  dsimp only
  refine ⟨?_, fun i => ⟨filterMap_get?_allSome resolve src.joints hall i, rfl⟩⟩
  rw [filterMap_length_allSome resolve src.joints hall, hlen]

/-- Witness for C9's amended statement: two resolvable joints with two
inverse-bind matrices. -/
theorem c9_aligned_when_all_resolve_witness :
    (∀ j ∈ ([1, 2] : List ℕ), ((fun i => some i) j : Option ℕ).isSome = true) ∧
    ((loadSkin (fun i => some i) ⟨[1, 2], some [matIdentity, matIdentity]⟩).Joints.length =
        (loadSkin (fun i => some i)
          ⟨[1, 2], some [matIdentity, matIdentity]⟩).InverseBindMatrices.length ∧
      ∀ i : ℕ,
        (loadSkin (fun i => some i) ⟨[1, 2], some [matIdentity, matIdentity]⟩).Joints.get? i =
          (([1, 2] : List ℕ).get? i).bind (fun i => some i) ∧
        (loadSkin (fun i => some i)
            ⟨[1, 2], some [matIdentity, matIdentity]⟩).InverseBindMatrices.get? i =
          ([matIdentity, matIdentity] : List Mat4).get? i) :=
  ⟨by decide,
   c9_aligned_when_all_resolve (fun i => some i) ⟨[1, 2], some [matIdentity, matIdentity]⟩
     [matIdentity, matIdentity] (by decide) rfl rfl⟩

/-- C10: for a model with a non-empty animation list, UpdateAnimation called
with an index at or beyond the list length returns with the model unchanged
(so every node's translation, rotation, scale and mesh transform is
untouched); and with an empty list the Uint32 guard computes size minus one
as 2^32 - 1, so it rejects no representable index at all. -/
theorem c10_animation_index_guard (rotFn : Float4 → Float4 → ℚ → Float4) (m : ModelSt)
    (index : ℕ) (time : ℚ) (h1 : 0 < m.animations.length)
    (h2 : m.animations.length < U32) (h3 : m.animations.length ≤ index) :
    updateAnimation rotFn m index time = m ∧
    ∀ i : ℕ, i < U32 → updateAnimationRejects 0 i = false := by
  have hg : updateAnimationRejects m.animations.length index = true := by
    unfold updateAnimationRejects
    unfold U32 at h2 ⊢
    simp only [decide_eq_true_eq]
    omega
  constructor
  · unfold updateAnimation
    rw [hg]
    simp
  · intro i hi
    unfold updateAnimationRejects
    unfold U32 at hi ⊢
    simp only [decide_eq_false_iff_not]
    omega

/-- Witness for C10: a model with one animation rejects index 5 unchanged. -/
theorem c10_animation_index_guard_witness :
    0 < exM10.animations.length ∧
    exM10.animations.length ≤ 5 ∧
    (updateAnimation exRotFn exM10 5 0 = exM10 ∧
      ∀ i : ℕ, i < U32 → updateAnimationRejects 0 i = false) :=
  ⟨by decide, by decide,
   c10_animation_index_guard exRotFn exM10 5 0 (by decide) (by decide) (by decide)⟩

end GLTF
